import Mathlib

/-!
Verification development for the LMS library-scan scheduler and control
state machine, a shallow embedding of
src/src/libs/services/scanner/impl/ScannerService.cpp.

Modelling conventions:
* Dates (Wt::WDate) are days since 1970-01-01 (a Thursday).
  Wt::WDate::dayOfWeek() returns 1 (Monday) .. 7 (Sunday).
* Times of day (Wt::WTime) are seconds since midnight, in [0, 86400).
  Wt::WTime::addSecs wraps around at midnight (Qt-compatible documented
  behaviour), hence the modulo in addSecsWrap.
* Wall-clock instants used for the progress rate limiter are milliseconds
  (Nat).  The C++ code computes a signed elapsed duration and truncates it
  to whole seconds; a negative elapsed duration truncates to a count <= 0
  and fails the "> 1" test, which coincides with Nat truncated subtraction,
  so the Nat model is observationally equivalent for the guard.
* Strings appearing in the scanner settings (file extensions, paths, tag
  delimiters) are opaque to every operation modelled here except equality
  comparison, so they are abstracted as Nat identifiers.
-/

namespace Scanner

/-- Wt::WDate::dayOfWeek: 1 = Monday .. 7 = Sunday.  Day 0 of the epoch
(1970-01-01) was a Thursday, i.e. 4. -/
def dayOfWeek (d : Nat) : Nat := (d + 3) % 7 + 1

/-- Wt::WDate::day (day of month, 1..31) via the standard civil-from-days
computation, for d = days since 1970-01-01. -/
def dayOfMonth (d : Nat) : Nat :=
  let z := d + 719468
  let era := z / 146097
  let doe := z - era * 146097
  let yoe := (doe - doe / 1460 + doe / 36524 - doe / 146096) / 365
  let doy := doe - (365 * yoe + yoe / 4 - yoe / 100)
  let mp := (5 * doy + 2) / 153
  doy - (153 * mp + 2) / 5 + 1

/-- ScannerService.cpp getNextMonday:
  do { current = current.addDays(1); } while (current.dayOfWeek() != 1);
The C++ loop terminates because the day of week cycles with period 7; for
the same reason fuel 7 is enough for the fuelled translation to reach the
fixed point of the loop exit test. -/
def getNextMondayGo : Nat → Nat → Nat
  | 0, current => current
  | fuel + 1, current =>
      if dayOfWeek (current + 1) = 1 then current + 1
      else getNextMondayGo fuel (current + 1)

def getNextMonday (current : Nat) : Nat := getNextMondayGo 7 current

/-- ScannerService.cpp getNextFirstOfMonth:
  do { current = current.addDays(1); } while (current.day() != 1);
Fuel 366 covers the longest possible gap between first-of-month days. -/
def getNextFirstOfMonthGo : Nat → Nat → Nat
  | 0, current => current
  | fuel + 1, current =>
      if dayOfMonth (current + 1) = 1 then current + 1
      else getNextFirstOfMonthGo fuel (current + 1)

def getNextFirstOfMonth (current : Nat) : Nat := getNextFirstOfMonthGo 366 current

/-- Wt::WTime::addSecs: wraps around at midnight. -/
def addSecsWrap (t s : Nat) : Nat := (t + s) % 86400

/-- Wt::WDateTime, restricted to valid values: a date (days since epoch)
and a time of day (seconds since midnight). -/
structure WDateTime where
  date : Nat
  time : Nat
  deriving DecidableEq, Repr

/-- Seconds since the epoch of a date-time, used to compare instants. -/
def toEpochSecs (dt : WDateTime) : Nat := dt.date * 86400 + dt.time

/-- Database::ScanSettings::UpdatePeriod. -/
inductive UpdatePeriod where
  | Never
  | Hourly
  | Daily
  | Weekly
  | Monthly
  deriving DecidableEq, Repr

/-- ScannerService state enum (NotScheduled / Scheduled / InProgress). -/
inductive State where
  | NotScheduled
  | Scheduled
  | InProgress
  deriving DecidableEq, Repr

/-- The five concrete scan step classes instantiated by
refreshScanSettings. -/
inductive ScanStepKind where
  | discoverFiles
  | scanFiles
  | removeOrphanDbFiles
  | computeClusterStats
  | checkDuplicatedDbFiles
  deriving DecidableEq, Repr

/-- ScannerSettings snapshot as produced by ScannerService::readSettings.
String-valued payloads are abstracted to Nat identifiers; only equality of
the whole snapshot is ever observed by the modelled operations. -/
structure ScannerSettings where
  skipDuplicateMBID : Bool
  scanVersion : Nat
  startTime : Nat
  updatePeriod : UpdatePeriod
  supportedExtensions : List Nat
  mediaLibraries : List (Nat × Nat)
  extraTags : List Nat
  artistTagDelimiters : List Nat
  defaultTagDelimiters : List Nat
  deriving DecidableEq, Repr

/-- ScanStats: counters accumulated by the scan steps plus start/stop
instants. -/
structure ScanStats where
  additions : Nat
  deletions : Nat
  updates : Nat
  skips : Nat
  scans : Nat
  errors : Nat
  featuresFetched : Nat
  duplicates : Nat
  startTime : Option WDateTime
  stopTime : Option WDateTime
  deriving DecidableEq, Repr

/-- Events emitted on the ScannerService event surface.  The
scanInProgress payload is projected to the step kind of the snapshot. -/
inductive Event where
  | scanScheduled (next : Option WDateTime)
  | scanStarted
  | scanInProgress (step : ScanStepKind)
  | scanComplete (stats : ScanStats)
  | scanAborted
  deriving DecidableEq, Repr

/-- Tasks posted to the internal single-threaded io service. -/
inductive PostedTask where
  | startup
  | immediateScan (force : Bool)
  | reload
  deriving DecidableEq, Repr

/-- The ScannerService member state observable by the modelled
operations. -/
structure ScannerState where
  abortScan : Bool
  ioRunning : Bool
  timerPending : Bool
  curState : State
  nextScheduledScan : Option WDateTime
  lastCompleteScanStats : ScanStats
  currentScanStepStats : Option ScanStepKind
  settings : ScannerSettings
  scanSteps : List ScanStepKind
  pendingTasks : List PostedTask
  deriving DecidableEq, Repr

/-- scheduleNextScan's computation of nextScanDateTime from the update
period, the configured start time and "now" (ScannerService.cpp lines
188-221).  The Never branch leaves nextScanDateTime null, hence none. -/
def scheduleNextScanTime (period : UpdatePeriod) (startTime : Nat) (now : WDateTime) :
    Option WDateTime :=
  match period with
  | UpdatePeriod.Daily =>
      if now.time < startTime then some ⟨now.date, startTime⟩
      else some ⟨now.date + 1, startTime⟩
  | UpdatePeriod.Weekly =>
      if now.time < startTime ∧ dayOfWeek now.date = 1 then some ⟨now.date, startTime⟩
      else some ⟨getNextMonday now.date, startTime⟩
  | UpdatePeriod.Monthly =>
      if now.time < startTime ∧ dayOfMonth now.date = 1 then some ⟨now.date, startTime⟩
      else some ⟨getNextFirstOfMonth now.date, startTime⟩
  | UpdatePeriod.Hourly => some ⟨now.date, addSecsWrap now.time 3600⟩
  | UpdatePeriod.Never => none

/-- The fixed step list pushed by refreshScanSettings (lines 348-353).
The settings snapshot is captured inside each step's InitParams but does
not influence which steps are built or their order. -/
def buildScanSteps (_s : ScannerSettings) : List ScanStepKind :=
  [ScanStepKind.discoverFiles, ScanStepKind.scanFiles, ScanStepKind.removeOrphanDbFiles,
   ScanStepKind.computeClusterStats, ScanStepKind.checkDuplicatedDbFiles]

/-- ScannerService::refreshScanSettings (lines 323-354); rs is the
snapshot returned by readSettings(), which reads the database and the
configuration and is external input to this model. -/
def refreshScanSettings (st : ScannerState) (rs : ScannerSettings) : ScannerState :=
  if st.settings = rs then st
  else { st with settings := rs, scanSteps := buildScanSteps rs }

/-- ScannerService::scheduleNextScan (lines 182-233): refresh settings,
compute the next run instant, arm the timer when it is valid, publish the
new state and emit scanScheduled. -/
def scheduleNextScanOp (now : WDateTime) (rs : ScannerSettings) (st : ScannerState) :
    ScannerState × List Event :=
  let st1 := refreshScanSettings st rs
  let next := scheduleNextScanTime st1.settings.updatePeriod st1.settings.startTime now
  let st2 := if next.isSome then { st1 with timerPending := true } else st1
  let st3 := { st2 with
    curState := if next.isSome then State.Scheduled else State.NotScheduled,
    nextScheduledScan := next }
  (st3, [Event.scanScheduled next])

/-- ScannerService::start (lines 90-103): posts the startup task and
starts the io service.  The posted task body is runStartupTask below. -/
def startOp (st : ScannerState) : ScannerState :=
  { st with pendingTasks := st.pendingTasks ++ [PostedTask.startup], ioRunning := true }

/-- ScannerService::stop (lines 105-112): sets the abort flag, cancels
the pending timer and stops the io service.  The abort flag is not reset
afterwards. -/
def stopOp (st : ScannerState) : ScannerState :=
  { st with abortScan := true, timerPending := false, ioRunning := false }

/-- Body of the task posted by start() (lines 94-100):
  if (_abortScan) return; scheduleNextScan(); -/
def runStartupTask (now : WDateTime) (rs : ScannerSettings) (st : ScannerState) :
    ScannerState × List Event :=
  if st.abortScan then (st, []) else scheduleNextScanOp now rs st

/-- ScannerService::abortScan (lines 114-137): snapshot whether a scan is
running, set the abort flag, cancel the timer, stop the io service, clear
the abort flag, restart the io service, and emit scanAborted when a scan
was in progress. -/
def abortScanOp (st : ScannerState) : ScannerState × List Event :=
  let st1 := { st with abortScan := true, timerPending := false, ioRunning := false }
  let st2 := { st1 with abortScan := false, ioRunning := true }
  (st2, if st.curState = State.InProgress then [Event.scanAborted] else [])

/-- ScannerService::requestStop (lines 151-154): the body is a single
call to abortScan(). -/
def requestStopOp (st : ScannerState) : ScannerState × List Event :=
  abortScanOp st

/-- ScannerService::scan (lines 263-321).  The effect of the steps on the
statistics and the concurrent setting of the abort flag are external
input: finalStats is the statistics after the step loop and abortSet is
the value of _abortScan at line 297.  Returns the final state, the
emitted events in order, and the list of steps processed by the loop. -/
def scanRun (nowEnd : WDateTime) (rs : ScannerSettings) (finalStats : ScanStats)
    (abortSet : Bool) (st : ScannerState) :
    ScannerState × List Event × List ScanStepKind :=
  let st1 := { st with curState := State.InProgress, nextScheduledScan := none }
  let st2 := refreshScanSettings st1 rs
  let steps := st2.scanSteps
  let progressEvents := steps.flatMap fun k => [Event.scanInProgress k, Event.scanInProgress k]
  let st3 := { st2 with abortScan := abortSet }
  if !abortSet then
    let stats := { finalStats with stopTime := some nowEnd }
    let st4 := { st3 with lastCompleteScanStats := stats, currentScanStepStats := none }
    let sched := scheduleNextScanOp nowEnd rs st4
    (sched.1, Event.scanStarted :: progressEvents ++ sched.2 ++ [Event.scanComplete stats],
      steps)
  else
    let st4 := { st3 with curState := State.NotScheduled, currentScanStepStats := none }
    (st4, Event.scanStarted :: progressEvents, steps)

/-- State read by the progress rate limiter
(_lastScanInProgressEmit, milliseconds since the clock epoch). -/
structure ProgressEmitState where
  lastScanInProgressEmit : Nat
  deriving DecidableEq, Repr

/-- ScannerService::notifyInProgressIfNeeded (lines 406-412) composed
with notifyInProgress (lines 394-404): emit a scanInProgress event and
record the emission instant only when the elapsed time since the last
emission, truncated to whole seconds, exceeds 1. -/
def notifyInProgressIfNeededOp (nowMs : Nat) (step : ScanStepKind) (st : ProgressEmitState) :
    ProgressEmitState × List Event :=
  if (nowMs - st.lastScanInProgressEmit) / 1000 > 1 then
    (⟨nowMs⟩, [Event.scanInProgress step])
  else (st, [])

/-! Concrete sample values used by witness theorems. -/

def sampleSettings : ScannerSettings :=
  { skipDuplicateMBID := false, scanVersion := 1, startTime := 28800,
    updatePeriod := UpdatePeriod.Daily, supportedExtensions := [1, 2],
    mediaLibraries := [(1, 10)], extraTags := [], artistTagDelimiters := [3],
    defaultTagDelimiters := [4] }

def sampleSettingsNever : ScannerSettings :=
  { sampleSettings with updatePeriod := UpdatePeriod.Never }

def emptyStats : ScanStats := ⟨0, 0, 0, 0, 0, 0, 0, 0, none, none⟩

def sampleState : ScannerState :=
  { abortScan := false, ioRunning := true, timerPending := false,
    curState := State.NotScheduled, nextScheduledScan := none,
    lastCompleteScanStats := emptyStats, currentScanStepStats := none,
    settings := sampleSettings, scanSteps := buildScanSteps sampleSettings,
    pendingTasks := [] }

/-! Helper lemmas. -/

/-- The fuelled getNextMonday loop finds the first Monday strictly after
current, provided one exists within the fuel. -/
theorem getNextMondayGo_spec (fuel : Nat) : ∀ current : Nat,
    (∃ k, 1 ≤ k ∧ k ≤ fuel ∧ dayOfWeek (current + k) = 1) →
    dayOfWeek (getNextMondayGo fuel current) = 1 ∧
      current < getNextMondayGo fuel current ∧
      ∀ e, current < e → e < getNextMondayGo fuel current → dayOfWeek e ≠ 1 := by
  induction fuel with
  | zero =>
      rintro current ⟨k, hk1, hk2, _⟩
      exact absurd hk2 (by omega)
  | succ n ih =>
      rintro current ⟨k, hk1, hk2, hk3⟩
      unfold getNextMondayGo
      by_cases hc : dayOfWeek (current + 1) = 1
      · rw [if_pos hc]
        exact ⟨hc, by omega, fun e he1 he2 => by omega⟩
      · rw [if_neg hc]
        have hk1' : 2 ≤ k := by
          by_contra hk
          have hk1'' : k = 1 := by omega
          subst hk1''
          exact hc hk3
        obtain ⟨h1, h2, h3⟩ := ih (current + 1)
          ⟨k - 1, by omega, by omega, by
            have he : current + 1 + (k - 1) = current + k := by omega
            rw [he]; exact hk3⟩
        refine ⟨h1, by omega, fun e he1 he2 => ?_⟩
        by_cases he : e = current + 1
        · subst he; exact hc
        · exact h3 e (by omega) he2

/-- Within any 7 consecutive days there is a Monday. -/
theorem nextMonday_exists (d : Nat) :
    ∃ k, 1 ≤ k ∧ k ≤ 7 ∧ dayOfWeek (d + k) = 1 := by
  refine ⟨if d % 7 < 4 then 4 - d % 7 else 11 - d % 7, ?_, ?_, ?_⟩
  · split <;> omega
  · split <;> omega
  · simp only [dayOfWeek]
    split <;> omega

/-- getNextMonday returns the first Monday strictly after its argument. -/
theorem getNextMonday_spec (current : Nat) :
    dayOfWeek (getNextMonday current) = 1 ∧
      current < getNextMonday current ∧
      ∀ e, current < e → e < getNextMonday current → dayOfWeek e ≠ 1 :=
  getNextMondayGo_spec 7 current (nextMonday_exists current)

theorem refreshScanSettings_lastStats (st : ScannerState) (rs : ScannerSettings) :
    (refreshScanSettings st rs).lastCompleteScanStats = st.lastCompleteScanStats := by
  unfold refreshScanSettings
  split <;> rfl

theorem refreshScanSettings_settings (st : ScannerState) (rs : ScannerSettings) :
    (refreshScanSettings st rs).settings = rs := by
  unfold refreshScanSettings
  by_cases h : st.settings = rs
  · rw [if_pos h]; exact h
  · rw [if_neg h]

theorem scheduleNextScanOp_curState (now : WDateTime) (rs : ScannerSettings)
    (st : ScannerState) :
    (scheduleNextScanOp now rs st).1.curState =
      if (scheduleNextScanTime rs.updatePeriod rs.startTime now).isSome then State.Scheduled
      else State.NotScheduled := by
  show (if (scheduleNextScanTime (refreshScanSettings st rs).settings.updatePeriod
        (refreshScanSettings st rs).settings.startTime now).isSome then State.Scheduled
      else State.NotScheduled) = _
  rw [refreshScanSettings_settings]

theorem scheduleNextScanOp_nextScheduled (now : WDateTime) (rs : ScannerSettings)
    (st : ScannerState) :
    (scheduleNextScanOp now rs st).1.nextScheduledScan =
      scheduleNextScanTime rs.updatePeriod rs.startTime now := by
  show scheduleNextScanTime (refreshScanSettings st rs).settings.updatePeriod
      (refreshScanSettings st rs).settings.startTime now = _
  rw [refreshScanSettings_settings]

/-- Every non-Never period yields a valid (some) next instant; Never
yields none. -/
theorem scheduleNextScanTime_isSome_iff (period : UpdatePeriod) (startTime : Nat)
    (now : WDateTime) :
    (scheduleNextScanTime period startTime now).isSome = true ↔
      period ≠ UpdatePeriod.Never := by
  cases period <;> simp only [scheduleNextScanTime] <;>
    first
      | (split <;> simp)
      | simp

theorem scanComplete_not_in_progress_events (l : List ScanStepKind) (s : ScanStats) :
    Event.scanComplete s ∉
      l.flatMap fun k => [Event.scanInProgress k, Event.scanInProgress k] := by
  intro h
  rw [List.mem_flatMap] at h
  obtain ⟨k, _, hk⟩ := h
  simp at hk

/-- The state component of an aborted scan run, written out. -/
theorem scanRun_abort_state (nowEnd : WDateTime) (rs : ScannerSettings)
    (finalStats : ScanStats) (st : ScannerState) :
    (scanRun nowEnd rs finalStats true st).1 =
      { refreshScanSettings
          { st with curState := State.InProgress, nextScheduledScan := none } rs with
        abortScan := true, curState := State.NotScheduled,
        currentScanStepStats := none } := rfl

/-- The events of an aborted scan run, written out. -/
theorem scanRun_abort_events (nowEnd : WDateTime) (rs : ScannerSettings)
    (finalStats : ScanStats) (st : ScannerState) :
    (scanRun nowEnd rs finalStats true st).2.1 =
      Event.scanStarted ::
        ((refreshScanSettings
            { st with curState := State.InProgress, nextScheduledScan := none } rs).scanSteps.flatMap
          fun k => [Event.scanInProgress k, Event.scanInProgress k]) := rfl

/-- The catalog state after the completing branch of scan(), before
rescheduling. -/
def scanRunCompleteState (nowEnd : WDateTime) (rs : ScannerSettings)
    (finalStats : ScanStats) (st : ScannerState) : ScannerState :=
  { refreshScanSettings
      { st with curState := State.InProgress, nextScheduledScan := none } rs with
    abortScan := false,
    lastCompleteScanStats := { finalStats with stopTime := some nowEnd },
    currentScanStepStats := none }

theorem scanRun_complete_state_eq (nowEnd : WDateTime) (rs : ScannerSettings)
    (finalStats : ScanStats) (st : ScannerState) :
    (scanRun nowEnd rs finalStats false st).1 =
      (scheduleNextScanOp nowEnd rs (scanRunCompleteState nowEnd rs finalStats st)).1 := rfl

theorem scanRun_complete_events_eq (nowEnd : WDateTime) (rs : ScannerSettings)
    (finalStats : ScanStats) (st : ScannerState) :
    (scanRun nowEnd rs finalStats false st).2.1 =
      Event.scanStarted ::
        ((refreshScanSettings
            { st with curState := State.InProgress, nextScheduledScan := none } rs).scanSteps.flatMap
            fun k => [Event.scanInProgress k, Event.scanInProgress k]) ++
          (scheduleNextScanOp nowEnd rs (scanRunCompleteState nowEnd rs finalStats st)).2 ++
          [Event.scanComplete { finalStats with stopTime := some nowEnd }] := rfl

/-- Both branches of scan() drive the loop over exactly the refreshed
step list. -/
theorem scanRun_steps (nowEnd : WDateTime) (rs : ScannerSettings)
    (finalStats : ScanStats) (abortSet : Bool) (st : ScannerState) :
    (scanRun nowEnd rs finalStats abortSet st).2.2 =
      (refreshScanSettings
        { st with curState := State.InProgress, nextScheduledScan := none } rs).scanSteps := by
  cases abortSet <;> rfl

/-- Single-call characterisation of the progress rate limiter. -/
theorem notifyInProgressIfNeededOp_spec (now : Nat) (s : ScanStepKind)
    (st : ProgressEmitState) :
    ((notifyInProgressIfNeededOp now s st).2 ≠ [] ↔
      (now - st.lastScanInProgressEmit) / 1000 > 1) ∧
    ((now - st.lastScanInProgressEmit) / 1000 > 1 →
      (notifyInProgressIfNeededOp now s st).1 = ⟨now⟩) := by
  unfold notifyInProgressIfNeededOp
  by_cases h : (now - st.lastScanInProgressEmit) / 1000 > 1
  · rw [if_pos h]
    simp [h]
  · rw [if_neg h]
    simp [h]

/-! Claim theorems. -/

/-- C1: for every call sequence stop() then start(), the startup task
posted by start() is supposed to invoke scheduleNextScan and so re-arm
the scheduler.  In the code, stop() sets the abort flag and never clears
it, and start() does not clear it either, so the posted startup task
returns immediately: the state is unchanged, no event is emitted and the
timer stays disarmed.  This theorem evaluates the code at that failing
call sequence. -/
theorem C1_stop_start_stays_disarmed (st : ScannerState) (now : WDateTime)
    (rs : ScannerSettings) :
    runStartupTask now rs (startOp (stopOp st)) = (startOp (stopOp st), []) ∧
    (startOp (stopOp st)).abortScan = true ∧
    (startOp (stopOp st)).timerPending = false :=
  ⟨rfl, rfl, rfl⟩

/-- C2: with updatePeriod = Weekly, scheduleNextScan picks the configured
time of day on the first Monday strictly after today, except that when
now is before today's configured time and today is already a Monday it
picks today; in particular Tuesday 10:00 with start time 08:00 yields
next Monday 08:00, and Monday 07:00 yields the same Monday 08:00. -/
theorem C2_weekly_scheduling (d t startTime : Nat) :
    (scheduleNextScanTime UpdatePeriod.Weekly startTime ⟨d, t⟩ =
      if t < startTime ∧ dayOfWeek d = 1 then some ⟨d, startTime⟩
      else some ⟨getNextMonday d, startTime⟩) ∧
    (dayOfWeek (getNextMonday d) = 1 ∧ d < getNextMonday d ∧
      ∀ e, d < e → e < getNextMonday d → dayOfWeek e ≠ 1) ∧
    (dayOfWeek d = 2 →
      scheduleNextScanTime UpdatePeriod.Weekly 28800 ⟨d, 36000⟩ =
        some ⟨getNextMonday d, 28800⟩) ∧
    (dayOfWeek d = 1 →
      scheduleNextScanTime UpdatePeriod.Weekly 28800 ⟨d, 25200⟩ =
        some ⟨d, 28800⟩) := by
  refine ⟨rfl, getNextMonday_spec d, fun h => ?_, fun h => ?_⟩
  · simp [scheduleNextScanTime]
  · simp [scheduleNextScanTime, h]

/-- Witness for C2: day 5 of the epoch (1970-01-06) is a Tuesday and day
4 (1970-01-05) is a Monday. -/
theorem C2_weekly_scheduling_witness :
    (dayOfWeek 5 = 2 ∧
      scheduleNextScanTime UpdatePeriod.Weekly 28800 ⟨5, 36000⟩ =
        some ⟨getNextMonday 5, 28800⟩) ∧
    (dayOfWeek 4 = 1 ∧
      scheduleNextScanTime UpdatePeriod.Weekly 28800 ⟨4, 25200⟩ = some ⟨4, 28800⟩) :=
  ⟨⟨by decide, (C2_weekly_scheduling 5 36000 28800).2.2.1 (by decide)⟩,
   ⟨by decide, (C2_weekly_scheduling 4 25200 28800).2.2.2 (by decide)⟩⟩

/-- C3: a scan run that ends with the abort flag set leaves
lastCompleteScanStats untouched, clears currentScanStepStats, moves the
state to NotScheduled and emits no scanComplete event. -/
theorem C3_abort_discards_stats (nowEnd : WDateTime) (rs : ScannerSettings)
    (finalStats : ScanStats) (st : ScannerState) :
    (scanRun nowEnd rs finalStats true st).1.lastCompleteScanStats =
        st.lastCompleteScanStats ∧
    (scanRun nowEnd rs finalStats true st).1.currentScanStepStats = none ∧
    (scanRun nowEnd rs finalStats true st).1.curState = State.NotScheduled ∧
    ∀ s, Event.scanComplete s ∉ (scanRun nowEnd rs finalStats true st).2.1 := by
  refine ⟨?_, ?_, ?_, ?_⟩
  · rw [scanRun_abort_state]
    show (refreshScanSettings
        { st with curState := State.InProgress, nextScheduledScan := none } rs).lastCompleteScanStats =
      st.lastCompleteScanStats
    rw [refreshScanSettings_lastStats]
  · rw [scanRun_abort_state]
  · rw [scanRun_abort_state]
  · intro s
    rw [scanRun_abort_events]
    intro hmem
    rcases List.mem_cons.mp hmem with h | h
    · exact Event.noConfusion h
    · exact scanComplete_not_in_progress_events _ s h

/-- C4: abortScan emits scanAborted exactly when the state was
InProgress at the call, and on return the abort flag is cleared and the
execution context restarted. -/
theorem C4_abortScan_spec (st : ScannerState) :
    (Event.scanAborted ∈ (abortScanOp st).2 ↔ st.curState = State.InProgress) ∧
    (abortScanOp st).1.abortScan = false ∧
    (abortScanOp st).1.ioRunning = true := by
  refine ⟨?_, rfl, rfl⟩
  unfold abortScanOp
  by_cases h : st.curState = State.InProgress
  · simp [h]
  · simp [h]

/-- C5: a scan run that completes with the abort flag clear recomputes
the schedule: the state becomes Scheduled with a valid next instant for
every period other than Never, becomes NotScheduled with no next instant
for Never, and a scanComplete event carrying the final statistics (with
stopTime filled in) is emitted. -/
theorem C5_complete_reschedules (nowEnd : WDateTime) (rs : ScannerSettings)
    (finalStats : ScanStats) (st : ScannerState) :
    (rs.updatePeriod ≠ UpdatePeriod.Never →
      (scanRun nowEnd rs finalStats false st).1.curState = State.Scheduled ∧
      ((scanRun nowEnd rs finalStats false st).1.nextScheduledScan).isSome = true) ∧
    (rs.updatePeriod = UpdatePeriod.Never →
      (scanRun nowEnd rs finalStats false st).1.curState = State.NotScheduled ∧
      (scanRun nowEnd rs finalStats false st).1.nextScheduledScan = none) ∧
    Event.scanComplete { finalStats with stopTime := some nowEnd } ∈
      (scanRun nowEnd rs finalStats false st).2.1 := by
  refine ⟨fun h => ?_, fun h => ?_, ?_⟩
  · have hsome : (scheduleNextScanTime rs.updatePeriod rs.startTime nowEnd).isSome = true :=
      (scheduleNextScanTime_isSome_iff _ _ _).mpr h
    constructor
    · rw [scanRun_complete_state_eq, scheduleNextScanOp_curState, if_pos hsome]
    · rw [scanRun_complete_state_eq, scheduleNextScanOp_nextScheduled]
      exact hsome
  · constructor
    · rw [scanRun_complete_state_eq, scheduleNextScanOp_curState, h]
      simp [scheduleNextScanTime]
    · rw [scanRun_complete_state_eq, scheduleNextScanOp_nextScheduled, h]
      rfl
  · rw [scanRun_complete_events_eq]
    simp

/-- Witness for C5 at concrete states: a Daily snapshot reschedules, a
Never snapshot disarms. -/
theorem C5_complete_reschedules_witness :
    (sampleSettings.updatePeriod ≠ UpdatePeriod.Never ∧
      (scanRun ⟨5, 36000⟩ sampleSettings emptyStats false sampleState).1.curState =
        State.Scheduled ∧
      ((scanRun ⟨5, 36000⟩ sampleSettings emptyStats false sampleState).1.nextScheduledScan).isSome =
        true) ∧
    (sampleSettingsNever.updatePeriod = UpdatePeriod.Never ∧
      (scanRun ⟨5, 36000⟩ sampleSettingsNever emptyStats false sampleState).1.curState =
        State.NotScheduled ∧
      (scanRun ⟨5, 36000⟩ sampleSettingsNever emptyStats false sampleState).1.nextScheduledScan =
        none) :=
  ⟨⟨by decide,
    (C5_complete_reschedules ⟨5, 36000⟩ sampleSettings emptyStats sampleState).1 (by decide)⟩,
   ⟨by decide,
    (C5_complete_reschedules ⟨5, 36000⟩ sampleSettingsNever emptyStats sampleState).2.1 (by decide)⟩⟩

/-- C6: with updatePeriod = Hourly the claim says the next scan is
scheduled exactly 3600 seconds after now, including within one hour of
midnight.  The code keeps now's date and wraps the time of day: at
23:30 it computes 00:30 of the same day, an instant 23 hours in the
past rather than one hour in the future. -/
theorem C6_hourly_midnight_wrap :
    scheduleNextScanTime UpdatePeriod.Hourly 28800 ⟨0, 84600⟩ = some ⟨0, 1800⟩ ∧
    toEpochSecs ⟨0, 1800⟩ < toEpochSecs ⟨0, 84600⟩ ∧
    toEpochSecs ⟨0, 1800⟩ ≠ toEpochSecs ⟨0, 84600⟩ + 3600 := by
  refine ⟨rfl, by decide, by decide⟩

/-- C7: refreshScanSettings is a no-op when the freshly read settings
equal the cached snapshot, and otherwise replaces the snapshot and
rebuilds the step list. -/
theorem C7_refresh_settings_frame (st : ScannerState) (rs : ScannerSettings) :
    (st.settings = rs → refreshScanSettings st rs = st) ∧
    (st.settings ≠ rs →
      (refreshScanSettings st rs).settings = rs ∧
      (refreshScanSettings st rs).scanSteps = buildScanSteps rs) := by
  constructor
  · intro h
    unfold refreshScanSettings
    rw [if_pos h]
  · intro h
    unfold refreshScanSettings
    rw [if_neg h]
    exact ⟨rfl, rfl⟩

/-- Witness for C7: an unchanged snapshot leaves the state untouched; a
changed snapshot replaces it and rebuilds the pipeline. -/
theorem C7_refresh_settings_frame_witness :
    (sampleState.settings = sampleSettings ∧
      refreshScanSettings sampleState sampleSettings = sampleState) ∧
    (sampleState.settings ≠ sampleSettingsNever ∧
      (refreshScanSettings sampleState sampleSettingsNever).settings = sampleSettingsNever ∧
      (refreshScanSettings sampleState sampleSettingsNever).scanSteps =
        buildScanSteps sampleSettingsNever) :=
  ⟨⟨by decide, (C7_refresh_settings_frame sampleState sampleSettings).1 (by decide)⟩,
   ⟨by decide, (C7_refresh_settings_frame sampleState sampleSettingsNever).2 (by decide)⟩⟩

/-- C8: every scan run drives the steps in the fixed order
DiscoverFiles, ScanFiles, RemoveOrphanDbFiles, ComputeClusterStats,
CheckDuplicatedDbFiles, each exactly once, independently of the settings
content and of the abort flag; the hypothesis is the invariant that the
step list was built by refreshScanSettings. -/
theorem C8_fixed_step_order (nowEnd : WDateTime) (rs : ScannerSettings)
    (finalStats : ScanStats) (abortSet : Bool) (st : ScannerState)
    (h : st.scanSteps = buildScanSteps st.settings) :
    (scanRun nowEnd rs finalStats abortSet st).2.2 =
      [ScanStepKind.discoverFiles, ScanStepKind.scanFiles,
       ScanStepKind.removeOrphanDbFiles, ScanStepKind.computeClusterStats,
       ScanStepKind.checkDuplicatedDbFiles] := by
  rw [scanRun_steps]
  unfold refreshScanSettings
  split
  · exact h
  · rfl

/-- Witness for C8, at a concrete state whose step list was built by
refreshScanSettings, with the abort flag set and a settings change. -/
theorem C8_fixed_step_order_witness :
    sampleState.scanSteps = buildScanSteps sampleState.settings ∧
    (scanRun ⟨5, 36000⟩ sampleSettingsNever emptyStats true sampleState).2.2 =
      [ScanStepKind.discoverFiles, ScanStepKind.scanFiles,
       ScanStepKind.removeOrphanDbFiles, ScanStepKind.computeClusterStats,
       ScanStepKind.checkDuplicatedDbFiles] :=
  ⟨by decide,
   C8_fixed_step_order ⟨5, 36000⟩ sampleSettingsNever emptyStats true sampleState (by decide)⟩

/-- C9: the per-step progress callback path emits only when the elapsed
wall time since the previous emission, truncated to whole seconds,
exceeds 1; hence an emission is always more than 1000 ms after the
recorded previous one, and two consecutive emissions through this path
are always more than 1000 ms apart. -/
theorem C9_progress_rate_limit (t1 t2 : Nat) (s1 s2 : ScanStepKind)
    (st : ProgressEmitState) :
    ((notifyInProgressIfNeededOp t1 s1 st).2 ≠ [] →
      t1 - st.lastScanInProgressEmit > 1000) ∧
    ((notifyInProgressIfNeededOp t1 s1 st).2 ≠ [] →
      (notifyInProgressIfNeededOp t2 s2 (notifyInProgressIfNeededOp t1 s1 st).1).2 ≠ [] →
      t2 - t1 > 1000) := by
  have e1 := notifyInProgressIfNeededOp_spec t1 s1 st
  constructor
  · intro h
    have h1 := e1.1.mp h
    omega
  · intro h h2
    have h1 := e1.1.mp h
    rw [e1.2 h1] at h2
    have e2 := notifyInProgressIfNeededOp_spec t2 s2 ⟨t1⟩
    have h3 := e2.1.mp h2
    have h4 : (t2 - t1) / 1000 > 1 := h3
    omega

/-- Witness for C9: with the previous emission at 0 ms, a call at
2500 ms emits, and a following call at 5000 ms emits again; both gaps
exceed 1000 ms. -/
theorem C9_progress_rate_limit_witness :
    (2500 - (⟨0⟩ : ProgressEmitState).lastScanInProgressEmit > 1000) ∧
    (5000 - 2500 > 1000) :=
  ⟨(C9_progress_rate_limit 2500 5000 ScanStepKind.discoverFiles ScanStepKind.scanFiles
      ⟨0⟩).1 (by decide),
   (C9_progress_rate_limit 2500 5000 ScanStepKind.discoverFiles ScanStepKind.scanFiles
      ⟨0⟩).2 (by decide) (by decide)⟩

/-- C10: requestStop is observationally identical to abortScan: the body
of requestStop() is a single call to abortScan(), so both produce the
same successor state and the same events from every starting state. -/
theorem C10_requestStop_equals_abortScan (st : ScannerState) :
    requestStopOp st = abortScanOp st ∧
    (requestStopOp st).1 = (abortScanOp st).1 ∧
    (requestStopOp st).2 = (abortScanOp st).2 :=
  ⟨rfl, rfl, rfl⟩

end Scanner
